import Mathlib

/-!
Verification of the YT_AllInOne download core: a shallow embedding of the
short-form classifier (`src/core/filters.py`), the quality-to-format mapping
(`src/core/selector.py`), the dry-run enumeration pipeline and error
classifier (`src/download/ytdlp_wrapper.py`), the download manager and
worker classification (`src/download/queue.py`), and the thumbnail/tag
export helpers (`src/core/exporter.py`).

Modelling conventions, used throughout:
- Python strings are Lean `String`; `str.lower()` is a character-wise map
  (`lowerStr`), `str.strip()` drops whitespace at both ends (`stripStr`),
  `needle in hay` is `strContains`.
- Python truthiness in `or` chains and `if` tests is modelled explicitly:
  `None`, `""` and numeric `0` are falsy.
- Python floats (durations) are modelled as rationals `ℚ`; the repo only
  compares them against small integer bounds.
- Raw diagnostic strings are taken after `clean_ansi_codes` stripping, which
  is where every classifier in the repo inspects them.
- Network and filesystem effects are oracles passed as function arguments
  (the yt-dlp engine, `requests.get`, the enrichment query); functions that
  the source runs for their side effects return their written payload, and
  where a claim is about which calls happen, the embedding also returns the
  list of calls made.
-/

namespace YTAllInOne

/-- Character-list substring test: `needle` occurs contiguously in `hay`.
Embeds Python's `needle in hay` on strings. -/
def isSubChars (needle : List Char) : List Char → Bool
  | [] => needle.isEmpty
  | c :: rest => needle.isPrefixOf (c :: rest) || isSubChars needle rest

/-- Python's `needle in hay` for strings. -/
def strContains (hay needle : String) : Bool :=
  isSubChars needle.data hay.data

/-- Python's `s.lower()`, character-wise. -/
def lowerStr (s : String) : String :=
  String.mk (s.data.map Char.toLower)

/-- Python's `s.strip()`: drop whitespace from both ends. -/
def stripStr (s : String) : String :=
  String.mk (((s.data.dropWhile Char.isWhitespace).reverse.dropWhile Char.isWhitespace).reverse)

/-- Python's `opt or ""` on an optional string (`None` and `""` are falsy,
both collapse to `""`). -/
def pyOrEmpty (q : Option String) : String :=
  match q with
  | some s => s
  | none => ""

/-- Python's `a or b or ""` on two optional strings: the first truthy
(non-`None`, non-empty) value, else `""`. -/
def pyOrStr2 (a b : Option String) : String :=
  match a with
  | some s =>
    if s = "" then
      match b with
      | some t => t
      | none => ""
    else s
  | none =>
    match b with
    | some t => t
    | none => ""

/-- Python's `xs[:n]` for an `int` slice bound `n` (negative bounds count
from the end, clamped at zero). -/
def pyTake (n : Int) (xs : List α) : List α :=
  if 0 ≤ n then xs.take n.toNat else xs.take (xs.length - (-n).toNat)

/-! ## src/core/filters.py -/

/-- A Python value found in a URL field (`webpage_url` / `url`), classified
by the two behaviors the source exercises: its truthiness in the `or`
chain, and whether `.lower()` works on it. `ustr` is a string (truthy iff
non-empty); `utruthy` is a truthy non-string (e.g. the int `123`), on which
`url.lower()` raises `AttributeError`; `ufalsy` is a falsy non-string other
than `None` (e.g. `0`), which the chain and the final `url or ""` drop. -/
inductive UrlVal where
  | ustr (s : String)
  | utruthy
  | ufalsy
deriving DecidableEq, Repr

/-- Python truthiness of a URL field value. -/
def urlTruthy : UrlVal → Bool
  | UrlVal.ustr s => if s = "" then false else true
  | UrlVal.utruthy => true
  | UrlVal.ufalsy => false

/-- A Python value found in the `duration` field, classified by its
truthiness and by what `float(...)` does to it: `num q` is an int, float or
bool of value `q` (falsy iff `q = 0`); `numStr q` is a non-empty numeric
string that `float` parses to `q` (truthy even for `"0"`); `badTruthy` is a
truthy value `float` rejects (e.g. an arbitrary object); `badFalsy` is a
falsy non-`None` value `float` rejects (e.g. `""`). -/
inductive DurVal where
  | num (q : ℚ)
  | numStr (q : ℚ)
  | badTruthy
  | badFalsy
deriving DecidableEq, Repr

/-- Python truthiness of a duration field value. -/
def durTruthy : DurVal → Bool
  | DurVal.num q => if q = 0 then false else true
  | DurVal.numStr _ => true
  | DurVal.badTruthy => true
  | DurVal.badFalsy => false

/-- The URL value `_extract_url_and_duration` hands to `is_shorts`: either a
string (possibly `""` from the final `url or ""`), or a truthy non-string
that survived the chain — on which `url.lower()` then raises. -/
inductive UrlRes where
  | str (s : String)
  | nonStr
deriving DecidableEq, Repr

/-- The source's four-term `or` chain over the two URL fields. For a dict
the two `getattr` terms are `None`; for an object the two `.get` terms are
`None`; in both cases the chain reduces to the first truthy of
`webpage_url` then `url`, and any falsy final value is collapsed to `""` by
the later `url or ""` — so both access paths share this one embedding. -/
def firstTruthyUrlVal (a b : Option UrlVal) : Option UrlVal :=
  match a with
  | some v =>
    if urlTruthy v then some v
    else
      match b with
      | some w => if urlTruthy w then some w else none
      | none => none
  | none =>
    match b with
    | some w => if urlTruthy w then some w else none
    | none => none

/-- The final `url or ""`: a falsy or absent chain result becomes `""`; a
truthy non-string value passes through and will make `.lower()` raise. -/
def finalizeUrl : Option UrlVal → UrlRes
  | some (UrlVal.ustr s) => UrlRes.str s
  | some UrlVal.utruthy => UrlRes.nonStr
  | some UrlVal.ufalsy => UrlRes.str ""
  | none => UrlRes.str ""

/-- The logical fields `_extract_url_and_duration` reads from a dict-like or
object-like entry; `none` is an absent field (the malformed-entry case). -/
structure RawEntryFields where
  webpage_url : Option UrlVal
  url : Option UrlVal
  duration : Option DurVal
deriving DecidableEq, Repr

/-- An input to `is_shorts` / `is_regular`: a bare URL string, a dict, or an
object. Dict and object read their URL fields identically (see
`firstTruthyUrlVal`), but differ on the duration: the dict path
`entry.get("duration") or getattr(entry, "duration", None)` drops a falsy
value (the `getattr` on a dict yields `None`), while the object path
`None or getattr(entry, "duration", None)` keeps it. -/
inductive PyEntry where
  | str (s : String)
  | dict (e : RawEntryFields)
  | obj (e : RawEntryFields)
deriving DecidableEq, Repr

/-- The URL half of the extraction, shared by dicts and objects. -/
def urlPart (e : RawEntryFields) : UrlRes :=
  finalizeUrl (firstTruthyUrlVal e.webpage_url e.url)

/-- The dict path's `duration_val`: `entry.get("duration") or getattr(...)`
evaluates to `None` when the dict's value is falsy (so a duration of `0`
is dropped), and to the value otherwise. -/
def dictDurationVal (d : Option DurVal) : Option DurVal :=
  match d with
  | some v => if durTruthy v then some v else none
  | none => none

/-- The `float(duration_val)` step guarded by `if duration_val is not None`:
a convertible value yields its number; a value `float` rejects raises, and
the enclosing `except` then resets BOTH url and duration to `None`, so the
result is `("", none)` regardless of the URL fields. -/
def floatPart (dv : Option DurVal) (u : UrlRes) : UrlRes × Option ℚ :=
  match dv with
  | none => (u, none)
  | some (DurVal.num q) => (u, some q)
  | some (DurVal.numStr q) => (u, some q)
  | some DurVal.badTruthy => (UrlRes.str "", none)
  | some DurVal.badFalsy => (UrlRes.str "", none)

/-- Embeds `filters._extract_url_and_duration`. A string input is returned
as the URL with no duration; a dict drops a falsy duration before the
`float` step, an object does not. -/
def extract_url_and_duration : PyEntry → UrlRes × Option ℚ
  | PyEntry.str s => (UrlRes.str s, none)
  | PyEntry.dict e => floatPart (dictDurationVal e.duration) (urlPart e)
  | PyEntry.obj e => floatPart e.duration (urlPart e)

/-- Embeds `filters.is_shorts`. The `url.lower()` on line 43 sits OUTSIDE
the extraction's `try`, so when the extracted URL is a truthy non-string it
raises `AttributeError` — modelled as `none`. Otherwise `some`: true when
the lower-cased URL contains `"/shorts/"`, or the extracted duration is
known and at most 60 seconds. -/
def is_shorts (entry : PyEntry) : Option Bool :=
  match extract_url_and_duration entry with
  | (UrlRes.nonStr, _) => none
  | (UrlRes.str url, duration) =>
    some (if strContains (lowerStr url) "/shorts/" then true
      else
        match duration with
        | some d => decide (d ≤ 60)
        | none => false)

/-- Embeds `filters.is_regular`: `not is_shorts(entry)` — it negates the
result and propagates the raise. -/
def is_regular (entry : PyEntry) : Option Bool :=
  (is_shorts entry).map (fun b => !b)

/-! ## src/core/selector.py -/

/-- Embeds `selector.build_format_selector`. The argument is optional to
model a `None` being passed for `quality`; the source normalises with
`(quality or "").strip().lower()` and raises `ValueError` when the result is
not one of the four mapping keys. `Except.error` models the raise; the
message interpolates the original argument as Python's f-string does
(`None` prints as `"None"`). -/
def build_format_selector (quality : Option String) : Except String String :=
  let q := lowerStr (stripStr (pyOrEmpty quality))
  if q = "best" then Except.ok "bestvideo*+bestaudio/best"
  else if q = "1080p" then Except.ok "bestvideo[height<=1080]+bestaudio/best[height<=1080]"
  else if q = "720p" then Except.ok "bestvideo[height<=720]+bestaudio/best[height<=720]"
  else if q = "480p" then Except.ok "bestvideo[height<=480]+bestaudio/best[height<=480]"
  else
    Except.error ("Unsupported quality: " ++ (match quality with
      | some s => s
      | none => "None"))

/-! ## src/core/models.py -/

/-- The closed error taxonomy of `models.ErrorCode`. -/
inductive ErrorCode where
  | PRIVATE
  | GEO_BLOCK
  | AGE_GATE
  | AUTH_REQUIRED
  | CONTENT_UNAVAILABLE
  | VIDEO_UNAVAILABLE
  | NETWORK
  | FFMPEG_MISSING
  | NO_SPACE
  | UNKNOWN
deriving DecidableEq, Repr

/-- A classified failure, `models.DownloadError` (every branch of
`_map_error` supplies a hint, so the hint is kept as a plain string here). -/
structure DownloadError where
  code : ErrorCode
  message : String
  hint : String
deriving DecidableEq, Repr

/-- The entry value produced by enumeration, `models.VideoEntry`. The
`thumbnails`, `tags` and `raw` payloads are never read by the dry-run
pipeline and are omitted. -/
structure VideoEntry where
  id : String
  url : String
  title : Option String
  duration : Option ℚ
  webpage_url : Option String
deriving DecidableEq, Repr

/-- A download request, `models.DownloadTask`. The opaque `options`
passthrough dict is modelled as empty (`ydl_opts.update({})` is the
identity). -/
structure DownloadTask where
  url : String
  outdir : String
  quality : String
  only_audio : Bool
  cookies_from_browser : Option String
deriving DecidableEq, Repr

/-! ## src/download/ytdlp_wrapper.py -/

/-- Embeds `YtDlpWrapper._map_error` on an ANSI-stripped diagnostic string:
the ordered keyword rules, first match wins. Hints are the source's verbatim
strings. -/
def map_error (msg : String) : DownloadError :=
  let lower := lowerStr msg
  if strContains lower "not available on this app" && strContains lower "latest version of youtube" then
    DownloadError.mk ErrorCode.CONTENT_UNAVAILABLE msg "yt-dlp cần cập nhật. Chạy: pip install --upgrade yt-dlp"
  else if strContains lower "video unavailable" then
    DownloadError.mk ErrorCode.VIDEO_UNAVAILABLE msg "Video không khả dụng hoặc đã bị xoá. Thử URL khác."
  else if strContains lower "sign in to confirm" && strContains lower "not a bot" then
    DownloadError.mk ErrorCode.AUTH_REQUIRED msg "YouTube yêu cầu xác thực. Dùng --cookies-from-browser chrome/edge/firefox hoặc --cookies file.txt"
  else if strContains lower "could not copy" && strContains lower "cookie database" then
    DownloadError.mk ErrorCode.AUTH_REQUIRED msg "Trình duyệt đang chạy, đóng Chrome/Edge rồi thử lại, hoặc chọn trình duyệt khác (Firefox/Safari)"
  else if strContains lower "temporary failure" || strContains lower "timed out" || strContains lower "connection" || strContains lower "read error" || strContains lower "http error 5" then
    DownloadError.mk ErrorCode.NETWORK msg "Kiểm tra mạng và thử lại."
  else if strContains lower "http error 403" || strContains lower "http error 410" || strContains lower "private" then
    DownloadError.mk ErrorCode.PRIVATE msg "Video riêng tư/đã xoá. Cần quyền hoặc URL khác."
  else if strContains lower "not available in your country" || strContains lower "geo" then
    DownloadError.mk ErrorCode.GEO_BLOCK msg "Bật geo_bypass hoặc dùng cookies phù hợp vùng."
  else if strContains lower "age" && (strContains lower "verify" || strContains lower "gate" || strContains lower "consent") then
    DownloadError.mk ErrorCode.AGE_GATE msg "Dùng cookies-from-browser để vượt qua age gate."
  else if strContains lower "no space" || strContains lower "no space left" || strContains lower "disk full" then
    DownloadError.mk ErrorCode.NO_SPACE msg "Giải phóng dung lượng ổ đĩa."
  else if strContains lower "http error" then
    DownloadError.mk ErrorCode.UNKNOWN msg "URL không hợp lệ hoặc không tồn tại."
  else
    DownloadError.mk ErrorCode.UNKNOWN msg "Thử lại với tuỳ chọn khác hoặc kiểm tra log."

/-- The URL key the dry-run pipeline inspects:
`(e.url or e.webpage_url or "")` with Python truthiness. -/
def entryUrlKey (e : VideoEntry) : String :=
  pyOrStr2 (some e.url) e.webpage_url

/-- URL-pattern short-form detection used inside `dry_run`:
`"/shorts/" in (e.url or e.webpage_url or "").lower()`. -/
def url_marked_short (e : VideoEntry) : Bool :=
  strContains (lowerStr (entryUrlKey e)) "/shorts/"

/-- The dict `dry_run` rebuilds before calling the classifier:
`{"webpage_url": enriched.url, "duration": enriched.duration}` (no `"url"`
key, duration already a float). -/
def entryProbeDict (e : VideoEntry) : PyEntry :=
  PyEntry.dict (RawEntryFields.mk (some (UrlVal.ustr e.url)) none (e.duration.map DurVal.num))

/-- The classifier call `is_shorts({...})` inside `dry_run`. The probe
dict's URL field is always a string, so `is_shorts` never raises on it
(`is_shorts_probe_total`); comparing with `some true` is therefore exactly
the Python branch on the returned Bool. -/
def probe_is_shorts (e : VideoEntry) : Bool :=
  decide (is_shorts (entryProbeDict e) = some true)

/-- The classifier call `is_regular({...})` inside `dry_run`; never raises
for the same reason as `probe_is_shorts`. -/
def probe_is_regular (e : VideoEntry) : Bool :=
  decide (is_regular (entryProbeDict e) = some true)

/-- Which branch of `dry_run`'s dispatch runs: the source tests
`filter_fn is None` and `filter_fn is is_shorts`; every other callable
(in the repo, `is_regular`) takes the final branch, embodied by `other`. -/
inductive FilterFn where
  | shorts
  | other
deriving DecidableEq, Repr

/-- The shorts-with-limit loop of `dry_run` (the `for e in entries` loop
after URL-based shorts fell short of the limit): skip entries already in
`url_shorts`, enrich the rest, keep those the classifier accepts, stop once
the limit is met. Returns the collected list and the number of
`enrich_entry` calls made. -/
def shortsFillLoop (enrich : VideoEntry → VideoEntry) (url_shorts : List VideoEntry)
    (limit : Int) : List VideoEntry → List VideoEntry → Nat → List VideoEntry × Nat
  | [], acc, cnt => (acc, cnt)
  | e :: rest, acc, cnt =>
    if e ∈ url_shorts then shortsFillLoop enrich url_shorts limit rest acc cnt
    else
      let enriched := enrich e
      if probe_is_shorts enriched then
        let acc2 := acc ++ [enriched]
        if limit ≤ (acc2.length : Int) then (acc2, cnt + 1)
        else shortsFillLoop enrich url_shorts limit rest acc2 (cnt + 1)
      else shortsFillLoop enrich url_shorts limit rest acc (cnt + 1)

/-- The regular-videos loop of `dry_run` without a limit: entries whose URL
already marks them short are not enriched (enrichment would be wasted),
every other entry is enriched, and the classifier keeps the non-shorts. -/
def regularAllLoop (enrich : VideoEntry → VideoEntry) :
    List VideoEntry → List VideoEntry → Nat → List VideoEntry × Nat
  | [], acc, cnt => (acc, cnt)
  | e :: rest, acc, cnt =>
    let base_is_short := url_marked_short e
    let enriched := if base_is_short then e else enrich e
    let cnt2 := if base_is_short then cnt else cnt + 1
    if probe_is_regular enriched then
      regularAllLoop enrich rest (acc ++ [enriched]) cnt2
    else regularAllLoop enrich rest acc cnt2

/-- The regular-videos loop of `dry_run` with a limit: as `regularAllLoop`,
but the loop breaks as soon as the limit is reached (checked at the top of
each iteration, as the source does). -/
def regularLimitLoop (enrich : VideoEntry → VideoEntry) (limit : Int) :
    List VideoEntry → List VideoEntry → Nat → List VideoEntry × Nat
  | [], acc, cnt => (acc, cnt)
  | e :: rest, acc, cnt =>
    if limit ≤ (acc.length : Int) then (acc, cnt)
    else
      let base_is_short := url_marked_short e
      let enriched := if base_is_short then e else enrich e
      let cnt2 := if base_is_short then cnt else cnt + 1
      if probe_is_regular enriched then
        regularLimitLoop enrich limit rest (acc ++ [enriched]) cnt2
      else regularLimitLoop enrich limit rest acc cnt2

/-- Embeds `YtDlpWrapper.dry_run` after the flat listing: `entries` is the
list `list_entries` returned for the source URL, `enrich` is the
`enrich_entry` network oracle, `filter` the predicate dispatch and `limit`
the optional count. Returns the selected entries and the number of
`enrich_entry` calls. -/
def dry_run (enrich : VideoEntry → VideoEntry) (entries : List VideoEntry)
    (filter : Option FilterFn) (limit : Option Int) : List VideoEntry × Nat :=
  match filter with
  | none =>
    match limit with
    | some l => (pyTake (max 0 l) entries, 0)
    | none => (entries, 0)
  | some FilterFn.shorts =>
    let url_shorts := entries.filter url_marked_short
    match limit with
    | none => (url_shorts, 0)
    | some l =>
      if l ≤ (url_shorts.length : Int) then (pyTake l url_shorts, 0)
      else shortsFillLoop enrich url_shorts l entries url_shorts 0
  | some FilterFn.other =>
    match limit with
    | none => regularAllLoop enrich entries [] 0
    | some l => regularLimitLoop enrich l entries [] 0

/-! ## src/download/queue.py -/

/-- The inline classification at the end of `_run_worker` (after the
no-cookies retry decision): the first matching rule's `(code, hint)`, or
`none` when the error event carries only the raw message. -/
def worker_classify (msg : String) : Option (String × String) :=
  let lower := lowerStr msg
  if strContains lower "sign in to confirm" && strContains lower "not a bot" then
    some ("AUTH_REQUIRED", "YouTube yêu cầu xác thực. Chọn Cookies: Chrome/Edge/Firefox hoặc dùng --cookies-from-browser. Đóng trình duyệt trước khi tải.")
  else if strContains lower "could not copy" && strContains lower "cookie database" then
    some ("AUTH_REQUIRED", "Không thể truy cập cookie database. Đóng trình duyệt rồi thử lại hoặc chọn trình duyệt khác (ví dụ Firefox).")
  else if strContains lower "http error 429" || strContains lower "too many requests" then
    some ("NETWORK", "Rate limit (429). Bật cookies-from-browser, giảm số lượng tải và thử lại sau.")
  else if strContains lower "not available on this app" && strContains lower "latest version of youtube" then
    some ("CONTENT_UNAVAILABLE", "Cập nhật yt-dlp: pip install --upgrade yt-dlp")
  else none

/-- The backing `subprocess.Popen` handle as the manager observes it:
`poll()` is `none` while the process runs, `some code` once it exited. -/
structure ProcInfo where
  poll : Option Int
deriving DecidableEq, Repr

/-- The `DownloadManager` control state touched by `start`: the `_proc`
handle and the `_current` task. -/
structure MgrState where
  proc : Option ProcInfo
  current : Option DownloadTask
deriving DecidableEq, Repr

/-- Embeds `DownloadManager.is_running`:
`bool(self._proc and self._proc.poll() is None) if self._proc else False`.
The `start` guard on line 254 tests the same condition. -/
def is_running (st : MgrState) : Bool :=
  match st.proc with
  | none => false
  | some p => p.poll.isNone

/-- An event `start` emits through `_emit`. Progress events stream from the
engine's hook during the transfer and are not produced by `start` itself;
the two events `start` emits are both terminal. Coded errors are emitted as
a `"CODE|message|hint"` string, exactly as the source formats them. -/
inductive Event where
  | done
  | errorEvent (message : String)
deriving DecidableEq, Repr

/-- The source's `f"{code}|{msg}|{hint}"` encoding of a classified error. -/
def mkCodedMsg (code msg hint : String) : String :=
  code ++ "|" ++ msg ++ "|" ++ hint

/-- The `cookiesfrombrowser` value `_build_ydl_opts` installs:
present iff `task.cookies_from_browser` is truthy. -/
def cookieOpt (task : DownloadTask) : Option String :=
  match task.cookies_from_browser with
  | some s => if s = "" then none else some s
  | none => none

/-- The format selector `_build_ydl_opts` computes:
`"bestaudio/best" if task.only_audio else build_format_selector(task.quality)`;
the `ValueError` of an unsupported quality propagates out of `start`. -/
def buildFmt (task : DownloadTask) : Except String String :=
  if task.only_audio then Except.ok "bestaudio/best"
  else build_format_selector (some task.quality)

/-- What one call to `DownloadManager.start` did. `raised` is the Python
exception that escaped (the already-running guard, or the `ValueError` of
an unsupported quality); `engineCalls` records the `cookiesfrombrowser`
option of each yt-dlp invocation, in order — every other option is
identical between the first attempt and the no-cookies retry. -/
structure StartOutcome where
  raised : Option String
  finalState : MgrState
  events : List Event
  engineCalls : List (Option String)
deriving Repr

/-- Embeds `DownloadManager.start` (queue.py lines 253-291). `engine` is the
yt-dlp invocation `_run_with_opts`, abstracted over the one option that
differs between attempts (the cookie source); `Except.error` carries the
ANSI-stripped failure text. Guard first; then `_current` is set; then the
option build may raise; then the engine runs, with the single no-cookies
retry when the first failure is a cookie-database copy failure and cookies
were in the options. -/
def manager_start (st : MgrState) (task : DownloadTask)
    (engine : Option String → Except String Unit) : StartOutcome :=
  if is_running st then
    StartOutcome.mk (some "A task is already running") st [] []
  else
    let st1 := MgrState.mk st.proc (some task)
    match buildFmt task with
    | Except.error e => StartOutcome.mk (some e) st1 [] []
    | Except.ok _ =>
      let ck := cookieOpt task
      match engine ck with
      | Except.ok _ => StartOutcome.mk none st1 [Event.done] [ck]
      | Except.error msg1 =>
        let lower := lowerStr msg1
        if ck.isSome && (strContains lower "could not copy" && strContains lower "cookie database") then
          match engine none with
          | Except.ok _ => StartOutcome.mk none st1 [Event.done] [ck, none]
          | Except.error msg2 =>
            StartOutcome.mk none st1
              [Event.errorEvent (mkCodedMsg "AUTH_REQUIRED" msg2 "Không thể truy cập cookie database. Đóng trình duyệt rồi thử lại, hoặc chọn trình duyệt khác (ví dụ Firefox).")]
              [ck, none]
        else if strContains lower "sign in to confirm" && strContains lower "not a bot" then
          StartOutcome.mk none st1
            [Event.errorEvent (mkCodedMsg "AUTH_REQUIRED" msg1 "YouTube yêu cầu xác thực. Chọn Cookies: Chrome/Edge/Firefox hoặc dùng --cookies-from-browser.")]
            [ck]
        else if strContains lower "http error 429" || strContains lower "too many requests" then
          StartOutcome.mk none st1
            [Event.errorEvent (mkCodedMsg "NETWORK" msg1 "Rate limit (429). Bật cookies-from-browser, giảm số lượng tải và thử lại sau.")]
            [ck]
        else StartOutcome.mk none st1 [Event.errorEvent msg1] [ck]

/-! ## src/core/exporter.py -/

/-- One observed HTTP response for `requests.get`: `none` when the request
raised, otherwise the status code and body bytes. -/
def HttpOracle : Type := String → Option (Int × List Nat)

/-- Embeds `exporter._attempt_download`: the body on a 200 response with a
non-empty body, `none` otherwise (exceptions included). -/
def attempt_download (resp : HttpOracle) (url : String) : Option (List Nat) :=
  match resp url with
  | none => none
  | some (status, content) =>
    if status == 200 && !content.isEmpty then some content else none

/-- The `for url in order` loop of `download_best_thumbnail`: the first
successful payload (the source writes it to a temp file and returns the
path; the embedding returns the payload written), plus the list of URLs
actually passed to `_attempt_download`. -/
def scanUrls (f : String → Option (List Nat)) : List String → Option (List Nat) × List String
  | [] => (none, [])
  | u :: rest =>
    match f u with
    | some d => (some d, [u])
    | none =>
      let r := scanUrls f rest
      (r.1, u :: r.2)

/-- The candidate-fallback loop of `download_best_thumbnail`: non-dict items
and items with a falsy `url` are skipped without an attempt. A candidate is
modelled as its extracted `url` field (`none` for a non-dict item or a
missing field). -/
def scanCands (f : String → Option (List Nat)) : List (Option String) → Option (List Nat) × List String
  | [] => (none, [])
  | none :: rest => scanCands f rest
  | some u :: rest =>
    if u = "" then scanCands f rest
    else
      match f u with
      | some d => (some d, [u])
      | none =>
        let r := scanCands f rest
        (r.1, u :: r.2)

/-- The conventionally-constructed URL sequence for a video id:
max-resolution, standard, high-quality default. -/
def builtinOrder (video_id : String) : List String :=
  let base := "https://i.ytimg.com/vi/" ++ video_id
  [base ++ "/maxresdefault.jpg", base ++ "/sddefault.jpg", base ++ "/hqdefault.jpg"]

/-- Embeds `exporter.download_best_thumbnail`: try the three built-in URLs in
order; only when all fail and the candidate list is truthy (present and
non-empty), try each candidate in order. Returns the first successful
payload (if any) and the URLs attempted. -/
def download_best_thumbnail (resp : HttpOracle) (video_id : String)
    (candidates : Option (List (Option String))) : Option (List Nat) × List String :=
  let builtin := scanUrls (attempt_download resp) (builtinOrder video_id)
  match builtin.1 with
  | some d => (some d, builtin.2)
  | none =>
    match candidates with
    | some (item :: rest) =>
      let cand := scanCands (attempt_download resp) (item :: rest)
      (cand.1, builtin.2 ++ cand.2)
    | _ => (none, builtin.2)

/-- Spec-side helper: the first URL in the list on which `f` succeeds, and
its payload. -/
def firstHit (f : String → Option (List Nat)) : List String → Option (List Nat)
  | [] => none
  | u :: rest =>
    match f u with
    | some d => some d
    | none => firstHit f rest

/-- The valid candidate URLs, in order: the `url` fields that are present
and non-empty. -/
def candUrls (candidates : Option (List (Option String))) : List String :=
  (candidates.getD []).filterMap (fun it =>
    match it with
    | some u => if u = "" then none else some u
    | none => none)

/-- A normalized `{videoId, title, tags}` record written by `export_tags`. -/
structure TagRec where
  videoId : String
  title : String
  tags : List String
deriving DecidableEq, Repr

/-- The `tags` field of an entry handed to `export_tags`: absent, a single
string, or a list of strings. -/
inductive TagsField where
  | absent
  | one (s : String)
  | many (l : List String)
deriving DecidableEq, Repr

/-- The logical fields `export_tags` reads from a normalized entry dict. -/
structure ExportEntry where
  id : Option String
  video_id : Option String
  title : Option String
  tags : TagsField
deriving DecidableEq, Repr

/-- The record-building loop of `export_tags` (lines 84-95):
`vid = d.get("id") or d.get("video_id") or ""`, `title = d.get("title") or ""`,
and `tags` normalized to a list — a truthy string becomes a one-element
list, anything falsy becomes `[]`, a list is kept element-wise. -/
def normalize_item (e : ExportEntry) : TagRec :=
  let vid := pyOrStr2 e.id e.video_id
  let title := pyOrEmpty e.title
  let tags := match e.tags with
    | TagsField.absent => []
    | TagsField.one s => if s = "" then [] else [s]
    | TagsField.many l => l
  TagRec.mk vid title tags

/-- The state of `tags.json` before an export: missing, unparseable
(`json.load` raises), a JSON array (its records), or a parseable value that
is not an array. -/
inductive PriorJson where
  | missing
  | invalid
  | arr (elems : List TagRec)
  | nonArray
deriving DecidableEq, Repr

/-- The `existing` list `export_tags` recovers from `tags.json` (lines
112-120): the array's elements when the file parses to a list, `[]` when the
file is missing, `json.load` raises, or the value is not a list. -/
def load_existing_tags : PriorJson → List TagRec
  | PriorJson.missing => []
  | PriorJson.invalid => []
  | PriorJson.nonArray => []
  | PriorJson.arr l => l

/-- The JSON phase of `export_tags`: the array written back to `tags.json`
is the recovered `existing` list extended with the newly normalized
records. -/
def export_tags_json (prior : PriorJson) (entries : List ExportEntry) : List TagRec :=
  load_existing_tags prior ++ entries.map normalize_item

/-! ## Concrete values used by witnesses -/

/-- An idle manager state: no backing process, no current task. -/
def idleState : MgrState := MgrState.mk none none

/-- A manager state whose backing process is alive (`poll()` is `None`). -/
def busyState : MgrState := MgrState.mk (some (ProcInfo.mk none)) none

/-- A concrete task requesting Chrome cookies at default quality. -/
def demoCookieTask : DownloadTask :=
  DownloadTask.mk "https://www.youtube.com/watch?v=abc" "out" "best" false (some "chrome")

/-- An engine that fails the cookie attempt with a cookie-database copy
failure and also fails the no-cookies retry. -/
def demoEngineBothFail : Option String → Except String Unit := fun ck =>
  match ck with
  | some _ => Except.error "ERROR: Could not copy Chrome cookie database"
  | none => Except.error "network unreachable"

/-! ## Supporting lemmas -/

/-- The URL chain yields nothing or one of its two inputs. -/
theorem firstTruthy_mem (a b : Option UrlVal) :
    firstTruthyUrlVal a b = none ∨ firstTruthyUrlVal a b = a ∨ firstTruthyUrlVal a b = b := by
  unfold firstTruthyUrlVal
  cases a with
  | none =>
    cases b with
    | none => exact Or.inl rfl
    | some w =>
      cases hw : urlTruthy w
      · simp [hw]
      · simp [hw]
  | some v =>
    cases hv : urlTruthy v
    · cases b with
      | none => simp [hv]
      | some w =>
        cases hw : urlTruthy w
        · simp [hv, hw]
        · simp [hv, hw]
    · simp [hv]

/-- The `url or ""` step yields a string whenever its input is not the
truthy non-string value. -/
theorem finalizeUrl_str (o : Option UrlVal) (h : o ≠ some UrlVal.utruthy) :
    ∃ s, finalizeUrl o = UrlRes.str s := by
  cases o with
  | none => exact ⟨"", rfl⟩
  | some v =>
    cases v with
    | ustr s => exact ⟨s, rfl⟩
    | utruthy => exact absurd rfl h
    | ufalsy => exact ⟨"", rfl⟩

/-- The extracted URL is a string when neither URL field holds a truthy
non-string value. -/
theorem urlPart_str (f : RawEntryFields)
    (hw : f.webpage_url ≠ some UrlVal.utruthy) (hu : f.url ≠ some UrlVal.utruthy) :
    ∃ s, urlPart f = UrlRes.str s := by
  rcases firstTruthy_mem f.webpage_url f.url with h | h | h
  · exact ⟨"", by simp only [urlPart]; rw [h]; rfl⟩
  · obtain ⟨s, hs⟩ := finalizeUrl_str f.webpage_url hw
    exact ⟨s, by simp only [urlPart]; rw [h, hs]⟩
  · obtain ⟨s, hs⟩ := finalizeUrl_str f.url hu
    exact ⟨s, by simp only [urlPart]; rw [h, hs]⟩

/-- The `float` step keeps a string URL a string (the raise path resets the
URL to `""`, also a string). -/
theorem floatPart_fst_str (dv : Option DurVal) (u : UrlRes) (h : ∃ s, u = UrlRes.str s) :
    ∃ s d, floatPart dv u = (UrlRes.str s, d) := by
  obtain ⟨s, rfl⟩ := h
  cases dv with
  | none => exact ⟨s, none, rfl⟩
  | some v =>
    cases v with
    | num q => exact ⟨s, some q, rfl⟩
    | numStr q => exact ⟨s, some q, rfl⟩
    | badTruthy => exact ⟨"", none, rfl⟩
    | badFalsy => exact ⟨"", none, rfl⟩

/-- The probe dicts `dry_run` builds never make `is_shorts` raise: their
URL field is always a string. -/
theorem is_shorts_probe_total (e : VideoEntry) :
    ∃ b, is_shorts (entryProbeDict e) = some b := by
  obtain ⟨s, hs⟩ := urlPart_str
    (RawEntryFields.mk (some (UrlVal.ustr e.url)) none (e.duration.map DurVal.num))
    (by simp) (by simp)
  obtain ⟨s2, d, hfp⟩ := floatPart_fst_str
    (dictDurationVal (e.duration.map DurVal.num))
    (urlPart (RawEntryFields.mk (some (UrlVal.ustr e.url)) none (e.duration.map DurVal.num)))
    ⟨s, hs⟩
  have hex : extract_url_and_duration (entryProbeDict e) = (UrlRes.str s2, d) := hfp
  exact ⟨_, by unfold is_shorts; rw [hex]⟩

/-- The loop result of `scanUrls` is the first hit of the scanned list. -/
theorem scanUrls_fst (f : String → Option (List Nat)) (us : List String) :
    (scanUrls f us).1 = firstHit f us := by
  induction us with
  | nil => rfl
  | cons u rest ih =>
    simp only [scanUrls, firstHit]
    cases h : f u
    · simp only [h]; exact ih
    · rfl

/-- A scan has no hit exactly when every URL fails. -/
theorem firstHit_none_iff (f : String → Option (List Nat)) (us : List String) :
    firstHit f us = none ↔ ∀ u ∈ us, f u = none := by
  induction us with
  | nil => simp [firstHit]
  | cons u rest ih =>
    simp only [firstHit]
    cases h : f u
    · simp only [h]
      constructor
      · intro hn
        intro v hv
        rcases List.mem_cons.mp hv with hv | hv
        · rw [hv]; exact h
        · exact (ih.mp hn) v hv
      · intro hall
        exact ih.mpr (fun v hv => hall v (List.mem_cons_of_mem u hv))
    · constructor
      · intro hn; exact absurd hn (by simp)
      · intro hall
        exact absurd (hall u (List.mem_cons_self u rest)) (by simp [h])

/-- The URLs a scan attempts form a prefix of the scanned list. -/
theorem scanUrls_tried_take (f : String → Option (List Nat)) (us : List String) :
    ∃ k, (scanUrls f us).2 = us.take k := by
  induction us with
  | nil => exact ⟨0, rfl⟩
  | cons u rest ih =>
    cases h : f u
    · obtain ⟨k, hk⟩ := ih
      exact ⟨k + 1, by simp [scanUrls, h, hk]⟩
    · exact ⟨1, by simp [scanUrls, h]⟩

/-- When no URL succeeds, the scan attempts the whole list. -/
theorem scanUrls_tried_of_none (f : String → Option (List Nat)) (us : List String)
    (h : firstHit f us = none) : (scanUrls f us).2 = us := by
  induction us with
  | nil => rfl
  | cons u rest ih =>
    simp only [firstHit] at h
    cases hu : f u
    · rw [hu] at h
      simp [scanUrls, hu, ih h]
    · rw [hu] at h; exact absurd h (by simp)

/-- The candidate loop is the plain URL scan over the valid candidate
URLs: skipped items contribute neither an attempt nor a hit. -/
theorem scanCands_eq_scanUrls (f : String → Option (List Nat)) (l : List (Option String)) :
    scanCands f l = scanUrls f (l.filterMap (fun it =>
      match it with
      | some u => if u = "" then none else some u
      | none => none)) := by
  induction l with
  | nil => rfl
  | cons it rest ih =>
    cases it with
    | none => simpa [scanCands] using ih
    | some u =>
      by_cases hu : u = ""
      · simpa [scanCands, hu] using ih
      · simp only [scanCands, hu, if_neg, List.filterMap_cons, scanUrls, ite_false]
        cases h : f u
        · simp [h, ih]
        · simp [h]

/-! ## Claim theorems -/

/-- C1: with the short-form predicate and no limit, `dry_run` returns
exactly the URL-marked sublist of the flat listing, in original order,
makes no `enrich_entry` call, and excludes every entry that is not
URL-marked — in particular entries that are short-form only by duration. -/
theorem dry_run_shorts_no_limit_exact :
    ∀ (enrich : VideoEntry → VideoEntry) (entries : List VideoEntry),
      (dry_run enrich entries (some FilterFn.shorts) none).1 = entries.filter url_marked_short ∧
      (dry_run enrich entries (some FilterFn.shorts) none).2 = 0 ∧
      ∀ e : VideoEntry, url_marked_short e = false →
        e ∉ (dry_run enrich entries (some FilterFn.shorts) none).1 := by
  intro enrich entries
  refine ⟨rfl, rfl, ?_⟩
  intro e he hmem
  rw [show (dry_run enrich entries (some FilterFn.shorts) none).1
        = entries.filter url_marked_short from rfl] at hmem
  exact absurd (List.mem_filter.mp hmem).2 (by simp [he])

/-- C2 counterexample: a dict entry with a non-marked URL and a duration of
exactly 0 — known and at most 60 — classifies long-form, because the
duration chain `entry.get("duration") or getattr(entry, "duration", None)`
drops the falsy `0` and the classifier sees no duration at all. -/
theorem is_shorts_dict_zero_duration_long_form :
    is_shorts (PyEntry.dict (RawEntryFields.mk
      (some (UrlVal.ustr "https://www.youtube.com/watch?v=abc")) none
      (some (DurVal.num 0)))) = some false ∧
    strContains (lowerStr "https://www.youtube.com/watch?v=abc") "/shorts/" = false ∧
    (0 : ℚ) ≤ 60 := by
  decide

/-- C2 amended: `is_shorts` returns true exactly when the EXTRACTED URL
contains the `"/shorts/"` marker (case-insensitively) or the EXTRACTED
duration is known and at most 60 — where the extraction's `or` chain drops
a falsy (zero) duration read from a dict, while an object attribute of 0 is
kept. At the boundary (extraction keeps nonzero values): duration exactly
60 with a non-marked URL is short-form and 61 is long-form; a dict duration
of exactly 0 is dropped and classifies long-form, an object duration of 0
classifies short-form. -/
theorem is_shorts_classification_rule_amended :
    (∀ (e : PyEntry) (url : String) (dur : Option ℚ),
      extract_url_and_duration e = (UrlRes.str url, dur) →
      (is_shorts e = some true ↔
        (strContains (lowerStr url) "/shorts/" = true ∨
         ∃ d : ℚ, dur = some d ∧ d ≤ 60))) ∧
    is_shorts (PyEntry.dict (RawEntryFields.mk
      (some (UrlVal.ustr "https://www.youtube.com/watch?v=abc")) none
      (some (DurVal.num 60)))) = some true ∧
    is_regular (PyEntry.dict (RawEntryFields.mk
      (some (UrlVal.ustr "https://www.youtube.com/watch?v=abc")) none
      (some (DurVal.num 61)))) = some true ∧
    is_shorts (PyEntry.obj (RawEntryFields.mk
      (some (UrlVal.ustr "https://www.youtube.com/watch?v=abc")) none
      (some (DurVal.num 0)))) = some true ∧
    is_shorts (PyEntry.dict (RawEntryFields.mk
      (some (UrlVal.ustr "https://www.youtube.com/watch?v=abc")) none
      (some (DurVal.num 0)))) = some false := by
  refine ⟨?_, by decide, by decide, by decide, by decide⟩
  intro e url dur hex
  simp only [is_shorts, hex]
  by_cases hc : strContains (lowerStr url) "/shorts/" = true
  · simp [hc]
  · simp only [Bool.not_eq_true] at hc
    cases dur with
    | none => simp [hc]
    | some d => simp [hc, decide_eq_true_eq]

/-- C3: when a task carries a browser cookie source and the first engine
invocation fails with a cookie-database copy failure, `start` retries the
identical task exactly once with the cookie option removed (two engine
calls, the second without cookies), the failed first attempt emits no
terminal event, and exactly one terminal event is emitted: `done` if the
retry succeeds, a single `AUTH_REQUIRED`-coded error if it also fails. -/
theorem start_cookie_retry_single_terminal (st : MgrState) (task : DownloadTask)
    (engine : Option String → Except String Unit) (m : String)
    (hidle : is_running st = false)
    (hck : (cookieOpt task).isSome = true)
    (hfmt : ∃ fmt, buildFmt task = Except.ok fmt)
    (hfail : engine (cookieOpt task) = Except.error m)
    (hcopy : strContains (lowerStr m) "could not copy" = true)
    (hdb : strContains (lowerStr m) "cookie database" = true) :
    (manager_start st task engine).raised = none ∧
    (manager_start st task engine).engineCalls = [cookieOpt task, none] ∧
    (manager_start st task engine).events =
      (match engine none with
        | Except.ok _ => [Event.done]
        | Except.error m2 => [Event.errorEvent (mkCodedMsg "AUTH_REQUIRED" m2
            "Không thể truy cập cookie database. Đóng trình duyệt rồi thử lại, hoặc chọn trình duyệt khác (ví dụ Firefox).")]) ∧
    (manager_start st task engine).events.length = 1 := by
  obtain ⟨fmt, hf⟩ := hfmt
  simp only [manager_start, hidle, Bool.false_eq_true, if_false, hf, hfail, hck, hcopy, hdb,
    Bool.and_self, Bool.and_true, Bool.true_and, if_true]
  cases hret : engine none with
  | ok u => simp [hret]
  | error m2 => simp [hret]

/-- C3 witness: a concrete idle manager, Chrome-cookie task and an engine
failing both attempts yields the two recorded engine calls and the single
`AUTH_REQUIRED` terminal event. -/
theorem start_cookie_retry_single_terminal_witness :
    (manager_start idleState demoCookieTask demoEngineBothFail).raised = none ∧
    (manager_start idleState demoCookieTask demoEngineBothFail).engineCalls = [some "chrome", none] ∧
    (manager_start idleState demoCookieTask demoEngineBothFail).events =
      [Event.errorEvent (mkCodedMsg "AUTH_REQUIRED" "network unreachable"
        "Không thể truy cập cookie database. Đóng trình duyệt rồi thử lại, hoặc chọn trình duyệt khác (ví dụ Firefox).")] ∧
    (manager_start idleState demoCookieTask demoEngineBothFail).events.length = 1 :=
  start_cookie_retry_single_terminal idleState demoCookieTask demoEngineBothFail
    "ERROR: Could not copy Chrome cookie database" rfl rfl ⟨"bestvideo*+bestaudio/best", rfl⟩
    rfl (by decide) (by decide)

/-- C4: `start` on a manager whose backing process is still running raises
the "already running" error, emits nothing, calls the engine zero times,
and leaves the manager state unchanged. -/
theorem start_fails_fast_when_running (st : MgrState) (task : DownloadTask)
    (engine : Option String → Except String Unit)
    (h : is_running st = true) :
    manager_start st task engine =
      StartOutcome.mk (some "A task is already running") st [] [] := by
  simp [manager_start, h]

/-- C4 witness: the guard fires on a concrete busy manager. -/
theorem start_fails_fast_when_running_witness :
    manager_start busyState demoCookieTask demoEngineBothFail =
      StartOutcome.mk (some "A task is already running") busyState [] [] :=
  start_fails_fast_when_running busyState demoCookieTask demoEngineBothFail rfl

/-- C5 counterexample: a rate-limit diagnostic that contains both claimed
markers is classified `UNKNOWN` by `_map_error` — which is the classifier
that produces `DownloadError` values — not `NETWORK`. -/
theorem map_error_rate_limit_not_network :
    strContains (lowerStr "HTTP Error 429: Too Many Requests") "http error 429" = true ∧
    strContains (lowerStr "HTTP Error 429: Too Many Requests") "too many requests" = true ∧
    (map_error "HTTP Error 429: Too Many Requests").code = ErrorCode.UNKNOWN ∧
    ErrorCode.UNKNOWN ≠ ErrorCode.NETWORK := by
  decide

/-- C5 amended: the rate-limit rule lives in the worker classification in
queue.py, not in `_map_error`. Whenever a diagnostic matches the 429 /
too-many-requests markers and no earlier worker rule (bot challenge,
cookie-database failure) matches, the worker classifies it `NETWORK`;
`_map_error`, lacking the rule, maps those same plain diagnostics to
`UNKNOWN`. -/
theorem rate_limit_classification_amended :
    (∀ s : String,
      (strContains (lowerStr s) "http error 429" = true ∨
       strContains (lowerStr s) "too many requests" = true) →
      ¬(strContains (lowerStr s) "sign in to confirm" = true ∧
        strContains (lowerStr s) "not a bot" = true) →
      ¬(strContains (lowerStr s) "could not copy" = true ∧
        strContains (lowerStr s) "cookie database" = true) →
      worker_classify s = some ("NETWORK",
        "Rate limit (429). Bật cookies-from-browser, giảm số lượng tải và thử lại sau.")) ∧
    (map_error "HTTP Error 429").code = ErrorCode.UNKNOWN ∧
    (map_error "too many requests").code = ErrorCode.UNKNOWN := by
  refine ⟨?_, by decide, by decide⟩
  intro s h429 hbot hck
  have h1 : (strContains (lowerStr s) "sign in to confirm" &&
      strContains (lowerStr s) "not a bot") = false := by
    cases ha : strContains (lowerStr s) "sign in to confirm"
    · simp
    · cases hb : strContains (lowerStr s) "not a bot"
      · simp
      · exact absurd ⟨ha, hb⟩ hbot
  have h2 : (strContains (lowerStr s) "could not copy" &&
      strContains (lowerStr s) "cookie database") = false := by
    cases ha : strContains (lowerStr s) "could not copy"
    · simp
    · cases hb : strContains (lowerStr s) "cookie database"
      · simp
      · exact absurd ⟨ha, hb⟩ hck
  have h3 : (strContains (lowerStr s) "http error 429" ||
      strContains (lowerStr s) "too many requests") = true := by
    rcases h429 with h | h <;> simp [h]
  simp [worker_classify, h1, h2, h3]

/-- C6 counterexample: a diagnostic containing both cookie-database markers
and a network keyword, but also the text `"video unavailable"`, is
classified `VIDEO_UNAVAILABLE` — rule 2 pre-empts the cookie rule, so the
claim is not true of every such string. -/
theorem map_error_cookie_rule_preempted :
    strContains (lowerStr "Video unavailable: could not copy Chrome cookie database: connection timed out") "could not copy" = true ∧
    strContains (lowerStr "Video unavailable: could not copy Chrome cookie database: connection timed out") "cookie database" = true ∧
    strContains (lowerStr "Video unavailable: could not copy Chrome cookie database: connection timed out") "timed out" = true ∧
    (map_error "Video unavailable: could not copy Chrome cookie database: connection timed out").code = ErrorCode.VIDEO_UNAVAILABLE ∧
    ErrorCode.VIDEO_UNAVAILABLE ≠ ErrorCode.AUTH_REQUIRED := by
  decide

/-- C6 amended: a diagnostic containing both cookie-database markers
classifies as `AUTH_REQUIRED` — even when it also contains network-failure
keywords, which the later network rule would match — provided neither of
the two earlier non-AUTH rules (outdated-app, video-unavailable) matches;
the bot-challenge rule needs no exclusion since it also yields
`AUTH_REQUIRED`. The concrete conjunct exercises the precedence over the
network keywords `"connection"`, `"timed out"` and `"http error 5"`. -/
theorem cookie_rule_precedence_amended :
    (∀ s : String,
      strContains (lowerStr s) "could not copy" = true →
      strContains (lowerStr s) "cookie database" = true →
      ¬(strContains (lowerStr s) "not available on this app" = true ∧
        strContains (lowerStr s) "latest version of youtube" = true) →
      strContains (lowerStr s) "video unavailable" = false →
      (map_error s).code = ErrorCode.AUTH_REQUIRED) ∧
    (map_error "Could not copy cookie database: connection timed out (HTTP Error 500)").code
      = ErrorCode.AUTH_REQUIRED := by
  refine ⟨?_, by decide⟩
  intro s hcc hdb hne hvu
  have h1 : (strContains (lowerStr s) "not available on this app" &&
      strContains (lowerStr s) "latest version of youtube") = false := by
    cases ha : strContains (lowerStr s) "not available on this app"
    · simp
    · cases hb : strContains (lowerStr s) "latest version of youtube"
      · simp
      · exact absurd ⟨ha, hb⟩ hne
  cases h3 : (strContains (lowerStr s) "sign in to confirm" &&
      strContains (lowerStr s) "not a bot")
  · simp [map_error, h1, hvu, h3, hcc, hdb]
  · simp [map_error, h1, hvu, h3]

/-- C7: the quality mapping is a total function that succeeds exactly when
the case-folded, whitespace-trimmed input is one of the four documented
keys, and raises for everything else — including the empty string and
`None`; `" BEST "` succeeds after normalization. -/
theorem build_format_selector_total_on_documented :
    (∀ q : Option String,
      (∃ v, build_format_selector q = Except.ok v) ↔
        lowerStr (stripStr (pyOrEmpty q)) ∈ (["best", "1080p", "720p", "480p"] : List String)) ∧
    build_format_selector (some " BEST ") = Except.ok "bestvideo*+bestaudio/best" ∧
    build_format_selector (some "720p") = Except.ok "bestvideo[height<=720]+bestaudio/best[height<=720]" ∧
    build_format_selector (some "") = Except.error "Unsupported quality: " ∧
    build_format_selector none = Except.error "Unsupported quality: None" := by
  refine ⟨?_, rfl, rfl, rfl, rfl⟩
  intro q
  simp only [build_format_selector]
  split_ifs with h1 h2 h3 h4 <;>
    simp_all [List.mem_cons]

/-- C8: `download_best_thumbnail` resolves to the first success of the
fixed built-in sequence (max-resolution, standard, high-quality default),
falling back to the first successful valid candidate only when every
built-in URL fails; whenever a built-in URL succeeds, the attempted URLs
are a prefix of the built-in sequence (no candidate is attempted and no
later URL is tried); when every built-in fails, the attempts are the full
built-in sequence followed by a prefix of the valid candidates; and the
result is `none` exactly when every built-in URL and every valid candidate
fails. -/
theorem download_best_thumbnail_priority_order (resp : HttpOracle) (video_id : String)
    (candidates : Option (List (Option String))) :
    (download_best_thumbnail resp video_id candidates).1 =
      (match firstHit (attempt_download resp) (builtinOrder video_id) with
        | some d => some d
        | none => firstHit (attempt_download resp) (candUrls candidates)) ∧
    ((∃ d, firstHit (attempt_download resp) (builtinOrder video_id) = some d) →
      ∃ k, (download_best_thumbnail resp video_id candidates).2 = (builtinOrder video_id).take k) ∧
    (firstHit (attempt_download resp) (builtinOrder video_id) = none →
      ∃ k, (download_best_thumbnail resp video_id candidates).2 =
        builtinOrder video_id ++ (candUrls candidates).take k) ∧
    ((download_best_thumbnail resp video_id candidates).1 = none ↔
      (∀ u ∈ builtinOrder video_id, attempt_download resp u = none) ∧
      (∀ u ∈ candUrls candidates, attempt_download resp u = none)) := by
  have hfst := scanUrls_fst (attempt_download resp) (builtinOrder video_id)
  cases hb : firstHit (attempt_download resp) (builtinOrder video_id) with
  | some d =>
    have hout : download_best_thumbnail resp video_id candidates =
        (some d, (scanUrls (attempt_download resp) (builtinOrder video_id)).2) := by
      simp only [download_best_thumbnail]
      rw [hfst, hb]
    refine ⟨?_, ?_, ?_, ?_⟩
    · simp [hout, hb]
    · intro _
      obtain ⟨k, hk⟩ := scanUrls_tried_take (attempt_download resp) (builtinOrder video_id)
      exact ⟨k, by rw [hout]; exact hk⟩
    · intro hcontra
      simp [hb] at hcontra
    · constructor
      · intro hc
        rw [hout] at hc
        simp at hc
      · intro hall
        have hn := (firstHit_none_iff _ _).mpr hall.1
        rw [hb] at hn
        exact absurd hn (by simp)
  | none =>
    have htried := scanUrls_tried_of_none (attempt_download resp) (builtinOrder video_id) hb
    rcases candidates with _ | ⟨_ | ⟨it, rest⟩⟩
    · have hout : download_best_thumbnail resp video_id none =
          (none, (scanUrls (attempt_download resp) (builtinOrder video_id)).2) := by
        simp only [download_best_thumbnail]
        rw [hfst, hb]
      refine ⟨?_, ?_, ?_, ?_⟩
      · simp [hout, hb, candUrls, firstHit]
      · intro hd
        exact ⟨3, by rw [hout, htried]; simp [builtinOrder]⟩
      · intro _
        exact ⟨0, by rw [hout, htried]; simp [candUrls]⟩
      · rw [hout]
        constructor
        · intro _
          exact ⟨(firstHit_none_iff _ _).mp hb, by simp [candUrls]⟩
        · intro _
          rfl
    · have hout : download_best_thumbnail resp video_id (some []) =
          (none, (scanUrls (attempt_download resp) (builtinOrder video_id)).2) := by
        simp only [download_best_thumbnail]
        rw [hfst, hb]
      refine ⟨?_, ?_, ?_, ?_⟩
      · simp [hout, hb, candUrls, firstHit]
      · intro hd
        exact ⟨3, by rw [hout, htried]; simp [builtinOrder]⟩
      · intro _
        exact ⟨0, by rw [hout, htried]; simp [candUrls]⟩
      · rw [hout]
        constructor
        · intro _
          exact ⟨(firstHit_none_iff _ _).mp hb, by simp [candUrls]⟩
        · intro _
          rfl
    · have hcand := scanCands_eq_scanUrls (attempt_download resp) (it :: rest)
      have hcu : (it :: rest).filterMap (fun x =>
          match x with
          | some u => if u = "" then none else some u
          | none => none) = candUrls (some (it :: rest)) := rfl
      have hout : download_best_thumbnail resp video_id (some (it :: rest)) =
          ((scanUrls (attempt_download resp) (candUrls (some (it :: rest)))).1,
            (scanUrls (attempt_download resp) (builtinOrder video_id)).2 ++
            (scanUrls (attempt_download resp) (candUrls (some (it :: rest)))).2) := by
        simp only [download_best_thumbnail]
        rw [hfst, hb, hcand, hcu]
      have hcfst := scanUrls_fst (attempt_download resp) (candUrls (some (it :: rest)))
      refine ⟨?_, ?_, ?_, ?_⟩
      · rw [hout]
        exact hcfst
      · intro hd
        exact absurd hd.choose_spec (by simp)
      · intro _
        obtain ⟨k, hk⟩ := scanUrls_tried_take (attempt_download resp)
          (candUrls (some (it :: rest)))
        exact ⟨k, by rw [hout, htried, hk]⟩
      · rw [hout]
        rw [show ((scanUrls (attempt_download resp) (candUrls (some (it :: rest)))).1,
            (scanUrls (attempt_download resp) (builtinOrder video_id)).2 ++
            (scanUrls (attempt_download resp) (candUrls (some (it :: rest)))).2).1
          = (scanUrls (attempt_download resp) (candUrls (some (it :: rest)))).1 from rfl]
        rw [hcfst]
        constructor
        · intro hc
          exact ⟨(firstHit_none_iff _ _).mp hb, (firstHit_none_iff _ _).mp hc⟩
        · intro hall
          exact (firstHit_none_iff _ _).mpr hall.2

/-- C9 counterexample: `url.lower()` on filters.py line 43 sits outside the
extraction's `try`, so a dict whose `webpage_url` holds a truthy non-string
value (e.g. the int `123`) makes `is_shorts` raise `AttributeError`
(modelled as `none`), and `is_regular` propagates the raise — refuting
"never raise ... for every input value". -/
theorem is_shorts_raises_on_nonstring_url :
    is_shorts (PyEntry.dict (RawEntryFields.mk (some UrlVal.utruthy) none none)) = none ∧
    is_regular (PyEntry.dict (RawEntryFields.mk (some UrlVal.utruthy) none none)) = none := by
  decide

/-- C9 amended: `is_shorts` raises exactly when the extracted URL is a
truthy non-string, and `is_regular` is the exact negation of `is_shorts`
wherever the latter is defined, raising exactly when it raises — so every
non-raising input is classified into exactly one of the two categories. In
particular, bare strings never raise (conjunct 4), dict and object entries
whose URL fields hold no truthy non-string value never raise (conjunct 5),
and a malformed entry lacking both URL and duration classifies regular
(conjunct 6). -/
theorem is_regular_negation_where_defined :
    (∀ (e : PyEntry) (b : Bool), is_shorts e = some b → is_regular e = some (!b)) ∧
    (∀ e : PyEntry, is_shorts e = none → is_regular e = none) ∧
    (∀ e : PyEntry, is_shorts e = none ↔ (extract_url_and_duration e).1 = UrlRes.nonStr) ∧
    (∀ s : String, is_shorts (PyEntry.str s) = some (strContains (lowerStr s) "/shorts/")) ∧
    (∀ f : RawEntryFields, f.webpage_url ≠ some UrlVal.utruthy → f.url ≠ some UrlVal.utruthy →
      (is_shorts (PyEntry.dict f)).isSome = true ∧ (is_shorts (PyEntry.obj f)).isSome = true) ∧
    is_regular (PyEntry.dict (RawEntryFields.mk none none none)) = some true := by
  refine ⟨?_, ?_, ?_, ?_, ?_, by decide⟩
  · intro e b h
    simp [is_regular, h]
  · intro e h
    simp [is_regular, h]
  · intro e
    rcases hex : extract_url_and_duration e with ⟨u, d⟩
    cases u with
    | str s => simp [is_shorts, hex]
    | nonStr => simp [is_shorts, hex]
  · intro s
    by_cases h : strContains (lowerStr s) "/shorts/" = true
    · simp [is_shorts, extract_url_and_duration, h]
    · simp only [Bool.not_eq_true] at h
      simp [is_shorts, extract_url_and_duration, h]
  · intro f hw hu
    obtain ⟨s, hs⟩ := urlPart_str f hw hu
    constructor
    · obtain ⟨s2, d, hfp⟩ := floatPart_fst_str (dictDurationVal f.duration) (urlPart f) ⟨s, hs⟩
      have hex : extract_url_and_duration (PyEntry.dict f) = (UrlRes.str s2, d) := hfp
      simp [is_shorts, hex]
    · obtain ⟨s2, d, hfp⟩ := floatPart_fst_str f.duration (urlPart f) ⟨s, hs⟩
      have hex : extract_url_and_duration (PyEntry.obj f) = (UrlRes.str s2, d) := hfp
      simp [is_shorts, hex]

/-- C10: when the existing `tags.json` holds invalid JSON or a non-array
value, `export_tags` recovers an empty prior list — nothing is appended to —
and rewrites the file as an array holding exactly the newly exported
records; a valid prior array, by contrast, is extended. -/
theorem export_tags_json_resets_on_invalid :
    ∀ entries : List ExportEntry,
      export_tags_json PriorJson.invalid entries = entries.map normalize_item ∧
      export_tags_json PriorJson.nonArray entries = entries.map normalize_item ∧
      ∀ l : List TagRec,
        export_tags_json (PriorJson.arr l) entries = l ++ entries.map normalize_item := by
  intro entries
  refine ⟨?_, ?_, ?_⟩
  · simp [export_tags_json, load_existing_tags]
  · simp [export_tags_json, load_existing_tags]
  · intro l; rfl

end YTAllInOne
